import Mathlib

/-!
Shallow embedding of the eVTOL Safe-Operating-Zone safety advisor
(src/app.py) and of the Flight Envelope Safety Evaluator it implements.

Scalar telemetry values are modelled as rationals: every threshold in the
source is a decimal literal, and all comparisons are order comparisons, so
the rational model is exact on every input the claims mention. Python list
indexing (used by the class-label lookup) is modelled with its negative-index
semantics. The injected classifier is an abstract function, as the model
artifact is external to the repository.
-/

namespace SafeOpZone

/-- The eight slider values of src/app.py, gathered as one value type
(the spec's TelemetrySnapshot). Field names follow the source variables. -/
structure TelemetrySnapshot where
  altitude : ℚ
  wind_speed : ℚ
  payload : ℚ
  ambient_temp : ℚ
  soc : ℚ
  battery_temp : ℚ
  climb_rate : ℚ
  thrust_demand : ℚ
deriving DecidableEq

/-- The feature row built at src/app.py lines 48-57: column names and values
in the order the DataFrame literal lists them. -/
def input_data (s : TelemetrySnapshot) : List (String × ℚ) :=
  [("altitude_m", s.altitude),
   ("wind_speed_m_s", s.wind_speed),
   ("payload_kg", s.payload),
   ("ambient_temp_c", s.ambient_temp),
   ("soc_percent", s.soc),
   ("battery_temp_c", s.battery_temp),
   ("climb_rate_m_s", s.climb_rate),
   ("thrust_demand_percent", s.thrust_demand)]

/-- Python exception raised by an out-of-range list subscript. -/
inductive PyErr where
  | indexError
deriving DecidableEq

/-- Effective index of a Python list subscript: a negative index counts from
the end of the list of length n. -/
def pyIndex (n : Int) (i : Int) : Int :=
  if i < 0 then i + n else i

/-- Python list subscript l i: negative indices count from the end; an
effective index outside the list raises IndexError. -/
def pyListGet (l : List String) (i : Int) : Except PyErr String :=
  if h : 0 ≤ pyIndex l.length i ∧ pyIndex l.length i < (l.length : Int) then
    .ok (l.get ⟨(pyIndex l.length i).toNat, by omega⟩)
  else
    .error .indexError

/-- The fixed class list of src/app.py line 64. -/
def classes : List String := ["Marginal", "Safe", "Unsafe"]

/-- The label lookup of src/app.py line 65: classes subscripted by the
predicted index. -/
def prediction_label (i : Int) : Except PyErr String :=
  pyListGet classes i

/-- src/app.py lines 60-65: the predicted index (or the classifier's own
failure, which nothing in the script catches) followed by the label lookup.
A failure on either side propagates; no default label is produced. -/
def run_classification (pred : Except PyErr Int) : Except PyErr String :=
  match pred with
  | .error e => .error e
  | .ok i => prediction_label i

/-- Gauge value chosen at src/app.py lines 74-85 from the predicted label. -/
def gauge_value (label : String) : ℚ :=
  if label = "Unsafe" then 15
  else if label = "Marginal" then 50
  else 85

/-- Gauge color chosen at src/app.py lines 74-85. -/
def gauge_color (label : String) : String :=
  if label = "Unsafe" then "red"
  else if label = "Marginal" then "orange"
  else "green"

/-- Status heading chosen at src/app.py lines 74-85. -/
def status_text (label : String) : String :=
  if label = "Unsafe" then "UNSAFE"
  else if label = "Marginal" then "MARGINAL"
  else "SAFE"

/-- Alert severity: st.warning banners are Warning, st.error banners are
Critical. -/
inductive Severity where
  | warning
  | critical
deriving DecidableEq

/-- One tag per alert banner of src/app.py lines 126-163. -/
inductive AlertTag where
  | highClimbRate
  | sinkRate
  | hardLanding
  | overweight
  | altitudeCeiling
  | heatCritical
  | freezing
  | batteryReserve
  | highWind
deriving DecidableEq

/-- An alert banner: its tag, its severity (warning or error in the source)
and its message text. -/
structure Alert where
  tag : AlertTag
  severity : Severity
  message : String
deriving DecidableEq

/-- src/app.py line 127. -/
def highClimbAlert : Alert :=
  ⟨.highClimbRate, .warning, "HIGH CLIMB RATE: Excessive Motor Stress (>8 m/s)"⟩

/-- src/app.py line 132. -/
def sinkRateAlert : Alert :=
  ⟨.sinkRate, .critical, "SINK RATE: Risk of Vortex Ring State (<-5 m/s)"⟩

/-- src/app.py line 136. -/
def hardLandingAlert : Alert :=
  ⟨.hardLanding, .critical, "HARD LANDING: Reduce Descent Rate Immediately"⟩

/-- src/app.py line 141. -/
def overweightAlert : Alert :=
  ⟨.overweight, .critical, "OVERWEIGHT: Exceeds 600kg Design Limit"⟩

/-- src/app.py line 146. -/
def altitudeCeilingAlert : Alert :=
  ⟨.altitudeCeiling, .critical, "ALTITUDE: Exceeds Service Ceiling (610m)"⟩

/-- src/app.py line 151. -/
def heatCriticalAlert : Alert :=
  ⟨.heatCritical, .critical, "HEAT CRITICAL: Exceeds +45C Limit"⟩

/-- src/app.py line 154. -/
def freezingAlert : Alert :=
  ⟨.freezing, .critical, "FREEZING: Below -10C Min Limit"⟩

/-- src/app.py line 158. -/
def batteryReserveAlert : Alert :=
  ⟨.batteryReserve, .warning, "RESERVE: Battery below 30% mandate"⟩

/-- src/app.py line 162. -/
def highWindAlert : Alert :=
  ⟨.highWind, .warning, "WIND: High Turbulence Risk"⟩

/-- src/app.py lines 126-133: the climb-rate if/elif pair. -/
def climb_rate_alerts (s : TelemetrySnapshot) : List Alert :=
  if s.climb_rate > 8 then [highClimbAlert]
  else if s.climb_rate < -5 then [sinkRateAlert]
  else []

/-- src/app.py lines 135-137. -/
def hard_landing_alerts (s : TelemetrySnapshot) : List Alert :=
  if s.altitude < 30 ∧ s.climb_rate < -3 then [hardLandingAlert] else []

/-- src/app.py lines 140-142. -/
def payload_alerts (s : TelemetrySnapshot) : List Alert :=
  if s.payload > 600 then [overweightAlert] else []

/-- src/app.py lines 145-147. -/
def altitude_alerts (s : TelemetrySnapshot) : List Alert :=
  if s.altitude > 610 then [altitudeCeilingAlert] else []

/-- src/app.py lines 150-155: the ambient-temperature if/elif pair. -/
def ambient_temp_alerts (s : TelemetrySnapshot) : List Alert :=
  if s.ambient_temp > 45 then [heatCriticalAlert]
  else if s.ambient_temp < -10 then [freezingAlert]
  else []

/-- src/app.py lines 157-159. -/
def soc_alerts (s : TelemetrySnapshot) : List Alert :=
  if s.soc < 30 then [batteryReserveAlert] else []

/-- src/app.py lines 161-163. -/
def wind_alerts (s : TelemetrySnapshot) : List Alert :=
  if s.wind_speed > 15 then [highWindAlert] else []

/-- The banners emitted by src/app.py lines 124-163, in source order. -/
def active_alerts (s : TelemetrySnapshot) : List Alert :=
  climb_rate_alerts s ++ hard_landing_alerts s ++ payload_alerts s ++
    altitude_alerts s ++ ambient_temp_alerts s ++ soc_alerts s ++ wind_alerts s

/-- The boolean flag of src/app.py line 124, set exactly in the branches that
emit a banner: true iff some alert was emitted. -/
def active_alerts_flag (s : TelemetrySnapshot) : Bool :=
  !(active_alerts s).isEmpty

/-- src/app.py lines 165-166: the synthetic nominal banner shown exactly when
no alert fired. -/
def nominal_banner (s : TelemetrySnapshot) : Bool :=
  !(active_alerts_flag s)

/-- An alert with the given tag and severity is among the emitted banners. -/
def fires (s : TelemetrySnapshot) (t : AlertTag) (sev : Severity) : Prop :=
  ∃ a ∈ active_alerts s, a.tag = t ∧ a.severity = sev

/-- The severity the spec's rule table assigns to each alert tag, for
comparison with the severities the source emits. -/
def ruleSeverity : AlertTag → Severity
  | .highClimbRate => .warning
  | .sinkRate => .critical
  | .hardLanding => .critical
  | .overweight => .critical
  | .altitudeCeiling => .critical
  | .heatCritical => .critical
  | .freezing => .critical
  | .batteryReserve => .warning
  | .highWind => .warning

/-- A trained model artifact as the script uses it: the two inference calls
of src/app.py lines 60-61, each taking the assembled feature row. -/
structure Model where
  predict : List (String × ℚ) → Int
  predict_proba : List (String × ℚ) → List ℚ

/-- src/app.py lines 48-61 as one function of the loaded artifacts: the
feature row is built from the sliders and handed to the model twice; the
scaler object loaded at line 21 is never referenced again, whatever its
type or value. -/
def run_inference (S : Type) (model : Model) (scaler : S) (s : TelemetrySnapshot) :
    Int × List ℚ :=
  (model.predict (input_data s), model.predict_proba (input_data s))

/-- A value of Python's float type: a finite value or one of the non-finite
values NaN, +inf, -inf. -/
inductive PyFloat where
  | finite (q : ℚ)
  | nan
  | posInf
  | negInf
deriving DecidableEq

/-- Whether a Python float is finite (math.isfinite). -/
def PyFloat.isFinite : PyFloat → Bool
  | .finite _ => true
  | _ => false

/-- The finite value of a Python float; zero on the non-finite values, which
the evaluator only reads behind a finiteness guard. -/
def PyFloat.val : PyFloat → ℚ
  | .finite q => q
  | _ => 0

/-- A snapshot before validation: each field is an arbitrary Python float,
possibly non-finite. -/
structure RawSnapshot where
  altitude : PyFloat
  wind_speed : PyFloat
  payload : PyFloat
  ambient_temp : PyFloat
  soc : PyFloat
  battery_temp : PyFloat
  climb_rate : PyFloat
  thrust_demand : PyFloat

/-- The two error kinds of the spec's evaluator contract. -/
inductive EvalError where
  | invalidSnapshot
  | classifierError
deriving DecidableEq

/-- All eight fields of a raw snapshot are finite. -/
def allFinite (r : RawSnapshot) : Bool :=
  r.altitude.isFinite && r.wind_speed.isFinite && r.payload.isFinite &&
    r.ambient_temp.isFinite && r.soc.isFinite && r.battery_temp.isFinite &&
    r.climb_rate.isFinite && r.thrust_demand.isFinite

/-- Modelled from the spec: the finiteness validation of the evaluator
contract. The script in src/app.py performs no such check (its slider inputs
are always finite); the spec requires an InvalidSnapshot failure whenever a
field is non-finite, and this definition follows those words. -/
def validate_snapshot (r : RawSnapshot) : Except EvalError TelemetrySnapshot :=
  if allFinite r then
    .ok ⟨r.altitude.val, r.wind_speed.val, r.payload.val, r.ambient_temp.val,
      r.soc.val, r.battery_temp.val, r.climb_rate.val, r.thrust_demand.val⟩
  else
    .error .invalidSnapshot

/-- The injected Classifier capability of the spec: class index and
probability vector from a feature row, either side may fail. -/
structure Classifier where
  predictClass : List (String × ℚ) → Except EvalError Int
  predictProbabilities : List (String × ℚ) → Except EvalError (List ℚ)

/-- Modelled from the spec: the evaluator contract evaluate(snapshot,
classifier). The snapshot is validated (InvalidSnapshot on any non-finite
field, a check absent from src/app.py), the classifier is consulted on the
feature row of src/app.py lines 48-57, its index is translated through the
class list of line 64 with Python subscript semantics, and the alert pass of
lines 124-163 supplies the alert list. Classifier failures and out-of-range
indices surface as ClassifierError; nothing is defaulted. -/
def evaluate (r : RawSnapshot) (c : Classifier) :
    Except EvalError (String × List ℚ × List Alert) :=
  match validate_snapshot r with
  | .error e => .error e
  | .ok s =>
    match c.predictClass (input_data s) with
    | .error _ => .error .classifierError
    | .ok i =>
      match prediction_label i with
      | .error _ => .error .classifierError
      | .ok label =>
        match c.predictProbabilities (input_data s) with
        | .error _ => .error .classifierError
        | .ok probs => .ok (label, probs, active_alerts s)

lemma mem_climb_rate_alerts (s : TelemetrySnapshot) (a : Alert) :
    a ∈ climb_rate_alerts s ↔
      (8 < s.climb_rate ∧ a = highClimbAlert) ∨
        (¬8 < s.climb_rate ∧ s.climb_rate < -5 ∧ a = sinkRateAlert) := by
  unfold climb_rate_alerts
  split_ifs with h1 h2
  · simp [h1]
  · simp [h1, h2]
  · simp [h1, h2]

lemma mem_hard_landing_alerts (s : TelemetrySnapshot) (a : Alert) :
    a ∈ hard_landing_alerts s ↔
      (s.altitude < 30 ∧ s.climb_rate < -3) ∧ a = hardLandingAlert := by
  unfold hard_landing_alerts
  split_ifs with h <;> simp [h]

lemma mem_payload_alerts (s : TelemetrySnapshot) (a : Alert) :
    a ∈ payload_alerts s ↔ 600 < s.payload ∧ a = overweightAlert := by
  unfold payload_alerts
  split_ifs with h <;> simp [h]

lemma mem_altitude_alerts (s : TelemetrySnapshot) (a : Alert) :
    a ∈ altitude_alerts s ↔ 610 < s.altitude ∧ a = altitudeCeilingAlert := by
  unfold altitude_alerts
  split_ifs with h <;> simp [h]

lemma mem_ambient_temp_alerts (s : TelemetrySnapshot) (a : Alert) :
    a ∈ ambient_temp_alerts s ↔
      (45 < s.ambient_temp ∧ a = heatCriticalAlert) ∨
        (¬45 < s.ambient_temp ∧ s.ambient_temp < -10 ∧ a = freezingAlert) := by
  unfold ambient_temp_alerts
  split_ifs with h1 h2
  · simp [h1]
  · simp [h1, h2]
  · simp [h1, h2]

lemma mem_soc_alerts (s : TelemetrySnapshot) (a : Alert) :
    a ∈ soc_alerts s ↔ s.soc < 30 ∧ a = batteryReserveAlert := by
  unfold soc_alerts
  split_ifs with h <;> simp [h]

lemma mem_wind_alerts (s : TelemetrySnapshot) (a : Alert) :
    a ∈ wind_alerts s ↔ 15 < s.wind_speed ∧ a = highWindAlert := by
  unfold wind_alerts
  split_ifs with h <;> simp [h]

lemma mem_active_alerts (s : TelemetrySnapshot) (a : Alert) :
    a ∈ active_alerts s ↔
      (8 < s.climb_rate ∧ a = highClimbAlert) ∨
        (¬8 < s.climb_rate ∧ s.climb_rate < -5 ∧ a = sinkRateAlert) ∨
        ((s.altitude < 30 ∧ s.climb_rate < -3) ∧ a = hardLandingAlert) ∨
        (600 < s.payload ∧ a = overweightAlert) ∨
        (610 < s.altitude ∧ a = altitudeCeilingAlert) ∨
        (45 < s.ambient_temp ∧ a = heatCriticalAlert) ∨
        (¬45 < s.ambient_temp ∧ s.ambient_temp < -10 ∧ a = freezingAlert) ∨
        (s.soc < 30 ∧ a = batteryReserveAlert) ∨
        (15 < s.wind_speed ∧ a = highWindAlert) := by
  simp only [active_alerts, List.mem_append, mem_climb_rate_alerts,
    mem_hard_landing_alerts, mem_payload_alerts, mem_altitude_alerts,
    mem_ambient_temp_alerts, mem_soc_alerts, mem_wind_alerts, or_assoc]

lemma fires_highClimb_iff (s : TelemetrySnapshot) :
    fires s .highClimbRate .warning ↔ 8 < s.climb_rate := by
  constructor
  · rintro ⟨a, hmem, hta, -⟩
    rw [mem_active_alerts] at hmem
    rcases hmem with ⟨h, rfl⟩ | ⟨h1, h2, rfl⟩ | ⟨h, rfl⟩ | ⟨h, rfl⟩ | ⟨h, rfl⟩ |
      ⟨h, rfl⟩ | ⟨h1, h2, rfl⟩ | ⟨h, rfl⟩ | ⟨h, rfl⟩ <;>
      first
        | exact h
        | exact absurd hta (by decide)
  · intro h
    exact ⟨highClimbAlert, (mem_active_alerts s highClimbAlert).mpr (Or.inl ⟨h, rfl⟩),
      rfl, rfl⟩

lemma fires_sinkRate_iff (s : TelemetrySnapshot) :
    fires s .sinkRate .critical ↔ s.climb_rate < -5 := by
  constructor
  · rintro ⟨a, hmem, hta, -⟩
    rw [mem_active_alerts] at hmem
    rcases hmem with ⟨h, rfl⟩ | ⟨h1, h2, rfl⟩ | ⟨h, rfl⟩ | ⟨h, rfl⟩ | ⟨h, rfl⟩ |
      ⟨h, rfl⟩ | ⟨h1, h2, rfl⟩ | ⟨h, rfl⟩ | ⟨h, rfl⟩ <;>
      first
        | exact h2
        | exact absurd hta (by decide)
  · intro h
    refine ⟨sinkRateAlert, (mem_active_alerts s sinkRateAlert).mpr ?_, rfl, rfl⟩
    refine Or.inr (Or.inl ⟨?_, h, rfl⟩)
    push_neg
    linarith

lemma fires_hardLanding_iff (s : TelemetrySnapshot) :
    fires s .hardLanding .critical ↔ s.altitude < 30 ∧ s.climb_rate < -3 := by
  constructor
  · rintro ⟨a, hmem, hta, -⟩
    rw [mem_active_alerts] at hmem
    rcases hmem with ⟨h, rfl⟩ | ⟨h1, h2, rfl⟩ | ⟨h, rfl⟩ | ⟨h, rfl⟩ | ⟨h, rfl⟩ |
      ⟨h, rfl⟩ | ⟨h1, h2, rfl⟩ | ⟨h, rfl⟩ | ⟨h, rfl⟩ <;>
      first
        | exact h
        | exact absurd hta (by decide)
  · intro h
    exact ⟨hardLandingAlert,
      (mem_active_alerts s hardLandingAlert).mpr (Or.inr (Or.inr (Or.inl ⟨h, rfl⟩))),
      rfl, rfl⟩

lemma fires_overweight_iff (s : TelemetrySnapshot) :
    fires s .overweight .critical ↔ 600 < s.payload := by
  constructor
  · rintro ⟨a, hmem, hta, -⟩
    rw [mem_active_alerts] at hmem
    rcases hmem with ⟨h, rfl⟩ | ⟨h1, h2, rfl⟩ | ⟨h, rfl⟩ | ⟨h, rfl⟩ | ⟨h, rfl⟩ |
      ⟨h, rfl⟩ | ⟨h1, h2, rfl⟩ | ⟨h, rfl⟩ | ⟨h, rfl⟩ <;>
      first
        | exact h
        | exact absurd hta (by decide)
  · intro h
    exact ⟨overweightAlert,
      (mem_active_alerts s overweightAlert).mpr
        (Or.inr (Or.inr (Or.inr (Or.inl ⟨h, rfl⟩)))),
      rfl, rfl⟩

lemma fires_altitudeCeiling_iff (s : TelemetrySnapshot) :
    fires s .altitudeCeiling .critical ↔ 610 < s.altitude := by
  constructor
  · rintro ⟨a, hmem, hta, -⟩
    rw [mem_active_alerts] at hmem
    rcases hmem with ⟨h, rfl⟩ | ⟨h1, h2, rfl⟩ | ⟨h, rfl⟩ | ⟨h, rfl⟩ | ⟨h, rfl⟩ |
      ⟨h, rfl⟩ | ⟨h1, h2, rfl⟩ | ⟨h, rfl⟩ | ⟨h, rfl⟩ <;>
      first
        | exact h
        | exact absurd hta (by decide)
  · intro h
    exact ⟨altitudeCeilingAlert,
      (mem_active_alerts s altitudeCeilingAlert).mpr
        (Or.inr (Or.inr (Or.inr (Or.inr (Or.inl ⟨h, rfl⟩))))),
      rfl, rfl⟩

lemma fires_heatCritical_iff (s : TelemetrySnapshot) :
    fires s .heatCritical .critical ↔ 45 < s.ambient_temp := by
  constructor
  · rintro ⟨a, hmem, hta, -⟩
    rw [mem_active_alerts] at hmem
    rcases hmem with ⟨h, rfl⟩ | ⟨h1, h2, rfl⟩ | ⟨h, rfl⟩ | ⟨h, rfl⟩ | ⟨h, rfl⟩ |
      ⟨h, rfl⟩ | ⟨h1, h2, rfl⟩ | ⟨h, rfl⟩ | ⟨h, rfl⟩ <;>
      first
        | exact h
        | exact absurd hta (by decide)
  · intro h
    exact ⟨heatCriticalAlert,
      (mem_active_alerts s heatCriticalAlert).mpr
        (Or.inr (Or.inr (Or.inr (Or.inr (Or.inr (Or.inl ⟨h, rfl⟩)))))),
      rfl, rfl⟩

lemma fires_freezing_iff (s : TelemetrySnapshot) :
    fires s .freezing .critical ↔ s.ambient_temp < -10 := by
  constructor
  · rintro ⟨a, hmem, hta, -⟩
    rw [mem_active_alerts] at hmem
    rcases hmem with ⟨h, rfl⟩ | ⟨h1, h2, rfl⟩ | ⟨h, rfl⟩ | ⟨h, rfl⟩ | ⟨h, rfl⟩ |
      ⟨h, rfl⟩ | ⟨h1, h2, rfl⟩ | ⟨h, rfl⟩ | ⟨h, rfl⟩ <;>
      first
        | exact h2
        | exact absurd hta (by decide)
  · intro h
    refine ⟨freezingAlert, (mem_active_alerts s freezingAlert).mpr ?_, rfl, rfl⟩
    refine Or.inr (Or.inr (Or.inr (Or.inr (Or.inr (Or.inr (Or.inl ⟨?_, h, rfl⟩))))))
    push_neg
    linarith

lemma fires_batteryReserve_iff (s : TelemetrySnapshot) :
    fires s .batteryReserve .warning ↔ s.soc < 30 := by
  constructor
  · rintro ⟨a, hmem, hta, -⟩
    rw [mem_active_alerts] at hmem
    rcases hmem with ⟨h, rfl⟩ | ⟨h1, h2, rfl⟩ | ⟨h, rfl⟩ | ⟨h, rfl⟩ | ⟨h, rfl⟩ |
      ⟨h, rfl⟩ | ⟨h1, h2, rfl⟩ | ⟨h, rfl⟩ | ⟨h, rfl⟩ <;>
      first
        | exact h
        | exact absurd hta (by decide)
  · intro h
    exact ⟨batteryReserveAlert,
      (mem_active_alerts s batteryReserveAlert).mpr
        (Or.inr (Or.inr (Or.inr (Or.inr (Or.inr (Or.inr (Or.inr (Or.inl ⟨h, rfl⟩)))))))),
      rfl, rfl⟩

lemma fires_highWind_iff (s : TelemetrySnapshot) :
    fires s .highWind .warning ↔ 15 < s.wind_speed := by
  constructor
  · rintro ⟨a, hmem, hta, -⟩
    rw [mem_active_alerts] at hmem
    rcases hmem with ⟨h, rfl⟩ | ⟨h1, h2, rfl⟩ | ⟨h, rfl⟩ | ⟨h, rfl⟩ | ⟨h, rfl⟩ |
      ⟨h, rfl⟩ | ⟨h1, h2, rfl⟩ | ⟨h, rfl⟩ | ⟨h, rfl⟩ <;>
      first
        | exact h
        | exact absurd hta (by decide)
  · intro h
    exact ⟨highWindAlert,
      (mem_active_alerts s highWindAlert).mpr
        (Or.inr (Or.inr (Or.inr (Or.inr (Or.inr (Or.inr (Or.inr (Or.inr ⟨h, rfl⟩)))))))),
      rfl, rfl⟩

lemma severity_matches_table (s : TelemetrySnapshot) (a : Alert)
    (h : a ∈ active_alerts s) : a.severity = ruleSeverity a.tag := by
  rw [mem_active_alerts] at h
  rcases h with ⟨-, rfl⟩ | ⟨-, -, rfl⟩ | ⟨-, rfl⟩ | ⟨-, rfl⟩ | ⟨-, rfl⟩ |
    ⟨-, rfl⟩ | ⟨-, -, rfl⟩ | ⟨-, rfl⟩ | ⟨-, rfl⟩ <;> rfl

lemma classes_length_int : (classes.length : Int) = 3 := rfl

lemma prediction_label_out (i : Int) (h : i < -3 ∨ 2 < i) :
    prediction_label i = .error .indexError := by
  have hnot : ¬(0 ≤ pyIndex classes.length i ∧
      pyIndex classes.length i < (classes.length : Int)) := by
    unfold pyIndex
    rw [classes_length_int]
    split_ifs with h0 <;> omega
  unfold prediction_label pyListGet
  rw [dif_neg hnot]

lemma prediction_label_zero : prediction_label 0 = .ok "Marginal" := rfl

lemma prediction_label_one : prediction_label 1 = .ok "Safe" := rfl

lemma prediction_label_two : prediction_label 2 = .ok "Unsafe" := rfl

lemma prediction_label_neg_one : prediction_label (-1) = .ok "Unsafe" := rfl

lemma prediction_label_neg_two : prediction_label (-2) = .ok "Safe" := rfl

lemma prediction_label_neg_three : prediction_label (-3) = .ok "Marginal" := rfl

lemma prediction_label_ok_range (i : Int) (l : String)
    (h : prediction_label i = .ok l) : -3 ≤ i ∧ i ≤ 2 := by
  by_cases hr : i < -3 ∨ 2 < i
  · rw [prediction_label_out i hr] at h
    simp at h
  · omega

lemma prediction_label_ok_mem (i : Int) (l : String)
    (h : prediction_label i = .ok l) :
    l = "Marginal" ∨ l = "Safe" ∨ l = "Unsafe" := by
  obtain ⟨h1, h2⟩ := prediction_label_ok_range i l h
  interval_cases i <;>
    simp_all [prediction_label_neg_three, prediction_label_neg_two,
      prediction_label_neg_one, prediction_label_zero, prediction_label_one,
      prediction_label_two]

lemma allFinite_false_of_field (r : RawSnapshot)
    (h : r.altitude.isFinite = false ∨ r.wind_speed.isFinite = false ∨
      r.payload.isFinite = false ∨ r.ambient_temp.isFinite = false ∨
      r.soc.isFinite = false ∨ r.battery_temp.isFinite = false ∨
      r.climb_rate.isFinite = false ∨ r.thrust_demand.isFinite = false) :
    allFinite r = false := by
  rcases h with h | h | h | h | h | h | h | h <;> simp [allFinite, h]

lemma validate_snapshot_invalid (r : RawSnapshot) (h : allFinite r = false) :
    validate_snapshot r = .error .invalidSnapshot := by
  simp [validate_snapshot, h]

/-- C1: for every snapshot, each of the nine alert rules fires exactly when
its strict-inequality condition against the fixed threshold holds, every
emitted alert carries the severity of the rule table (Warning for high climb
rate, low battery reserve and high wind, Critical for the rest), and a
snapshot at exactly 610 m of altitude fires no ceiling alert. -/
theorem alert_rules_fire_exactly_on_conditions (s : TelemetrySnapshot) :
    (fires s .highClimbRate .warning ↔ 8 < s.climb_rate) ∧
      (fires s .sinkRate .critical ↔ s.climb_rate < -5) ∧
      (fires s .hardLanding .critical ↔ s.altitude < 30 ∧ s.climb_rate < -3) ∧
      (fires s .overweight .critical ↔ 600 < s.payload) ∧
      (fires s .altitudeCeiling .critical ↔ 610 < s.altitude) ∧
      (fires s .heatCritical .critical ↔ 45 < s.ambient_temp) ∧
      (fires s .freezing .critical ↔ s.ambient_temp < -10) ∧
      (fires s .batteryReserve .warning ↔ s.soc < 30) ∧
      (fires s .highWind .warning ↔ 15 < s.wind_speed) ∧
      (∀ a ∈ active_alerts s, a.severity = ruleSeverity a.tag) ∧
      (s.altitude = 610 → ¬fires s .altitudeCeiling .critical) :=
  ⟨fires_highClimb_iff s, fires_sinkRate_iff s, fires_hardLanding_iff s,
    fires_overweight_iff s, fires_altitudeCeiling_iff s,
    fires_heatCritical_iff s, fires_freezing_iff s, fires_batteryReserve_iff s,
    fires_highWind_iff s, severity_matches_table s,
    fun h610 hf => by
      have hgt := (fires_altitudeCeiling_iff s).mp hf
      rw [h610] at hgt
      exact lt_irrefl 610 hgt⟩

/-- C2: evaluating a raw snapshot in which any single field is non-finite
fails with InvalidSnapshot, whatever the injected classifier is, and no
classification is produced. The finiteness validation is modelled from the
spec, since src/app.py contains no such check. -/
theorem invalid_snapshot_on_nonfinite_field (r : RawSnapshot) (c : Classifier)
    (h : r.altitude.isFinite = false ∨ r.wind_speed.isFinite = false ∨
      r.payload.isFinite = false ∨ r.ambient_temp.isFinite = false ∨
      r.soc.isFinite = false ∨ r.battery_temp.isFinite = false ∨
      r.climb_rate.isFinite = false ∨ r.thrust_demand.isFinite = false) :
    evaluate r c = .error .invalidSnapshot := by
  unfold evaluate
  rw [validate_snapshot_invalid r (allFinite_false_of_field r h)]

/-- C2 witness: the nominal snapshot with its altitude replaced by NaN fails
with InvalidSnapshot under a classifier that would otherwise answer Safe. -/
theorem invalid_snapshot_on_nonfinite_field_witness :
    evaluate
      ⟨.nan, .finite 5, .finite 500, .finite 25, .finite 80, .finite 35,
        .finite 0, .finite 60⟩
      ⟨fun _ => .ok 1, fun _ => .ok [0, 1, 0]⟩ = .error .invalidSnapshot :=
  invalid_snapshot_on_nonfinite_field _ _ (Or.inl rfl)

/-- C3 counterexample: the class index -1 lies outside the expected set
{0, 1, 2}, yet the lookup of src/app.py line 65 does not fail: Python
negative indexing silently returns the Unsafe label. -/
theorem negative_index_not_an_error :
    run_classification (.ok (-1)) = .ok "Unsafe" ∧
      ¬((-1 : Int) = 0 ∨ (-1 : Int) = 1 ∨ (-1 : Int) = 2) :=
  ⟨rfl, by decide⟩

/-- C3 amended: a classifier failure propagates unchanged and no safety class
is defaulted; a class index outside the Python-valid range -3..2 makes the
lookup fail with IndexError; the indices -3..-1, although outside {0, 1, 2},
succeed through negative indexing. -/
theorem classifier_error_propagation :
    (∀ e : PyErr, run_classification (.error e) = .error e) ∧
      (∀ i : Int, i < -3 ∨ 2 < i →
        run_classification (.ok i) = .error .indexError) ∧
      (∀ (i : Int) (l : String), run_classification (.ok i) = .ok l →
        -3 ≤ i ∧ i ≤ 2) :=
  ⟨fun _ => rfl, fun i hi => prediction_label_out i hi,
    fun i l h => prediction_label_ok_range i l h⟩

/-- C4: the ordinal mapping of src/app.py lines 64-65 sends 0 to Marginal,
1 to Safe and 2 to Unsafe; every successful lookup yields one of the three
labels, and index 2 yields nothing but Unsafe. -/
theorem class_index_label_mapping :
    prediction_label 0 = .ok "Marginal" ∧ prediction_label 1 = .ok "Safe" ∧
      prediction_label 2 = .ok "Unsafe" ∧
      (∀ (i : Int) (l : String), prediction_label i = .ok l →
        l = "Marginal" ∨ l = "Safe" ∨ l = "Unsafe") ∧
      (∀ l : String, prediction_label 2 = .ok l → l = "Unsafe") :=
  ⟨rfl, rfl, rfl, prediction_label_ok_mem, fun l h => by
    rw [prediction_label_two] at h
    injection h with h2
    exact h2.symm⟩

/-- C5: the feature row handed to the classifier holds exactly the eight
snapshot fields, under the fixed column names and in the fixed order of the
DataFrame literal in src/app.py lines 48-57. -/
theorem feature_row_fixed_order (s : TelemetrySnapshot) :
    (input_data s).map Prod.fst =
      ["altitude_m", "wind_speed_m_s", "payload_kg", "ambient_temp_c",
        "soc_percent", "battery_temp_c", "climb_rate_m_s",
        "thrust_demand_percent"] ∧
      (input_data s).map Prod.snd =
        [s.altitude, s.wind_speed, s.payload, s.ambient_temp, s.soc,
          s.battery_temp, s.climb_rate, s.thrust_demand] ∧
      (input_data s).length = 8 :=
  ⟨rfl, rfl, rfl⟩

/-- C6: for every snapshot, the high-climb-rate and sink-rate alerts never
fire together, and the heat-critical and freezing alerts never fire
together. -/
theorem mutually_exclusive_rule_pairs (s : TelemetrySnapshot) :
    ¬(fires s .highClimbRate .warning ∧ fires s .sinkRate .critical) ∧
      ¬(fires s .heatCritical .critical ∧ fires s .freezing .critical) := by
  constructor
  · rintro ⟨hc1, hc2⟩
    have a1 := (fires_highClimb_iff s).mp hc1
    have a2 := (fires_sinkRate_iff s).mp hc2
    linarith
  · rintro ⟨hc1, hc2⟩
    have a1 := (fires_heatCritical_iff s).mp hc1
    have a2 := (fires_freezing_iff s).mp hc2
    linarith

/-- C7: when none of the nine alert conditions holds, the alert list is empty
and the single synthetic nominal banner is reported. -/
theorem nominal_when_no_rule_fires (s : TelemetrySnapshot)
    (h : ¬8 < s.climb_rate ∧ ¬s.climb_rate < -5 ∧
      ¬(s.altitude < 30 ∧ s.climb_rate < -3) ∧ ¬600 < s.payload ∧
      ¬610 < s.altitude ∧ ¬45 < s.ambient_temp ∧ ¬s.ambient_temp < -10 ∧
      ¬s.soc < 30 ∧ ¬15 < s.wind_speed) :
    active_alerts s = [] ∧ nominal_banner s = true := by
  obtain ⟨h1, h2, h3, h4, h5, h6, h7, h8, h9⟩ := h
  have hempty : active_alerts s = [] := by
    unfold active_alerts climb_rate_alerts hard_landing_alerts payload_alerts
      altitude_alerts ambient_temp_alerts soc_alerts wind_alerts
    simp [h1, h2, h3, h4, h5, h6, h7, h8, h9]
  exact ⟨hempty, by simp [nominal_banner, active_alerts_flag, hempty]⟩

/-- C7 witness: the spec's no-alert snapshot (altitude 150, wind 5, payload
500, ambient 25, SOC 80, battery temperature 35, climb rate 0, thrust 60)
yields the empty alert list and the nominal banner. -/
theorem nominal_when_no_rule_fires_witness :
    active_alerts ⟨150, 5, 500, 25, 80, 35, 0, 60⟩ = [] ∧
      nominal_banner ⟨150, 5, 500, 25, 80, 35, 0, 60⟩ = true :=
  nominal_when_no_rule_fires ⟨150, 5, 500, 25, 80, 35, 0, 60⟩ (by norm_num)

/-- C8: the gauge shows 15 for Unsafe, 50 for Marginal and 85 for Safe, so
the index always lies strictly inside the red band below 33, the orange band
33 to 66, or the green band 66 to 100; and every label a successful lookup
can produce maps to one of those three values. -/
theorem gauge_index_bands :
    gauge_value "Unsafe" = 15 ∧ gauge_value "Marginal" = 50 ∧
      gauge_value "Safe" = 85 ∧
      (0 ≤ gauge_value "Unsafe" ∧ gauge_value "Unsafe" < 33) ∧
      (33 ≤ gauge_value "Marginal" ∧ gauge_value "Marginal" < 66) ∧
      (66 ≤ gauge_value "Safe" ∧ gauge_value "Safe" ≤ 100) ∧
      (∀ (i : Int) (l : String), prediction_label i = .ok l →
        gauge_value l = 15 ∨ gauge_value l = 50 ∨ gauge_value l = 85) := by
  refine ⟨rfl, rfl, rfl, ?_, ?_, ?_, fun i l h => ?_⟩
  · rw [show gauge_value "Unsafe" = 15 from rfl]
    norm_num
  · rw [show gauge_value "Marginal" = 50 from rfl]
    norm_num
  · rw [show gauge_value "Safe" = 85 from rfl]
    norm_num
  rcases prediction_label_ok_mem i l h with rfl | rfl | rfl
  · exact Or.inr (Or.inl rfl)
  · exact Or.inr (Or.inr rfl)
  · exact Or.inl rfl

/-- C9: the loaded scaler never reaches the inference path: two runs of the
script state that differ only in the scaler artifact produce the identical
class index and probability vector, and the model receives the raw feature
row unchanged. -/
theorem scaler_unused_noninterference :
    (∀ (S₁ S₂ : Type) (model : Model) (sc₁ : S₁) (sc₂ : S₂)
      (s : TelemetrySnapshot),
      run_inference S₁ model sc₁ s = run_inference S₂ model sc₂ s) ∧
      (∀ (S : Type) (model : Model) (sc : S) (s : TelemetrySnapshot),
        run_inference S model sc s =
          (model.predict (input_data s), model.predict_proba (input_data s))) :=
  ⟨fun _ _ _ _ _ _ => rfl, fun _ _ _ _ => rfl⟩

/-- C10: Python negative indexing on the class list: -1 yields Unsafe, -2
yields Safe, -3 yields Marginal, and exactly the indices outside -3..2 make
the lookup fail with IndexError. -/
theorem negative_class_index_lookup :
    prediction_label (-1) = .ok "Unsafe" ∧
      prediction_label (-2) = .ok "Safe" ∧
      prediction_label (-3) = .ok "Marginal" ∧
      (∀ i : Int, prediction_label i = .error .indexError ↔ i < -3 ∨ 2 < i) := by
  refine ⟨rfl, rfl, rfl, fun i => ⟨?_, prediction_label_out i⟩⟩
  intro h
  by_contra hc
  have ha : -3 ≤ i := by omega
  have hb : i ≤ 2 := by omega
  interval_cases i <;>
    simp_all [prediction_label_neg_three, prediction_label_neg_two,
      prediction_label_neg_one, prediction_label_zero, prediction_label_one,
      prediction_label_two]

end SafeOpZone
